import Mathlib

/-!
Verification of nxapi's token-exchange/caching logic (`getToken` in
`src/cli/nso/util.ts`-style module) and of the NSO HTTP proxy server
(`src/cli/nso/http-server.ts`) against its natural-language specification.

The persisted `node-persist` store is modelled as a map from string keys
to a sum of the value shapes the code stores.  Network calls
(`ZncApi.createWithSessionToken`, `getFriendList`, `getAnnouncements`,
`getCurrentUser`) are modelled as oracle parameters holding the outcome
the network would produce if called, together with explicit flags
recording whether the call was made.
-/

/-! ## Persisted key-value store -/

/-- Fields of a Nintendo Account session-token credential bundle, as
returned by `ZncApi.createWithSessionToken` / `ZncProxyApi.createWithSessionToken`.
The handshake implementation lives in `src/api/znc.js`, outside the
provided sources; here only the shape of its result matters:
`user.id` (the stable Nintendo Account id), the web API server
credential's `accessToken` and `expiresIn` (seconds), and the remaining
response fields lumped into `rest`. -/
structure Credential where
  accessToken : String
  expiresIn : Nat
deriving DecidableEq, Repr

/-- The `data` part returned by a fresh session-token exchange,
before `expires_at` is attached. -/
structure TokenData where
  uuid : String
  userId : String
  credential : Credential
  rest : String
deriving DecidableEq, Repr

/-- `SavedToken`: the credential bundle persisted under
`NsoToken.<session token>`, i.e. the exchange data plus an absolute
`expires_at` timestamp in milliseconds. -/
structure SavedToken where
  data : TokenData
  expires_at : Nat
deriving DecidableEq, Repr

/-- `AuthPolicy`: capability flags and optional friend allowlists for a
proxy auth token.  The TS fields are optional booleans (absent reads as
false wherever only truthiness is checked) and optional string arrays
(`friends`, `friends_presence`); a present-but-empty array is truthy in
JS, hence `Option (List String)` with `some []` meaning an empty
allowlist. -/
structure AuthPolicy where
  announcements : Bool
  list_friends : Bool
  list_friends_presence : Bool
  friend : Bool
  friend_presence : Bool
  webservices : Bool
  activeevent : Bool
  current_user : Bool
  current_user_presence : Bool
  friends : Option (List String)
  friends_presence : Option (List String)
deriving DecidableEq, Repr

/-- `AuthToken`: the per-proxy-token record persisted under
`ZncProxyAuthPolicy.<token>`. -/
structure AuthToken where
  user : String
  policy : Option AuthPolicy
  created_at : Nat
deriving DecidableEq, Repr

/-- The value shapes the code persists in the `node-persist` store. -/
inductive StoreVal where
  | str (s : String)
  | saved (t : SavedToken)
  | auth (a : AuthToken)
  | strList (l : List String)
deriving DecidableEq, Repr

/-- The persisted store: string keys to JSON-serialisable values. -/
def Storage : Type := String → Option StoreVal

/-- `storage.getItem(key)`. -/
def getItem (s : Storage) (k : String) : Option StoreVal := s k

/-- `storage.setItem(key, value)`: last-write-wins per key. -/
def setItem (s : Storage) (k : String) (v : StoreVal) : Storage :=
  fun x => if x = k then some v else s x

/-- `storage.removeItem(key)`. -/
def removeItem (s : Storage) (k : String) : Storage :=
  fun x => if x = k then none else s x

/-- The store holding no items. -/
def emptyStorage : Storage := fun _ => none

/-- Key prefix for the token cache: `'NsoToken.' + token`. -/
def nsoTokenKey (token : String) : String := "NsoToken." ++ token

/-- Key prefix for the reverse user-to-token mapping:
`'NintendoAccountToken.' + user_id`. -/
def naTokenKey (userId : String) : String := "NintendoAccountToken." ++ userId

/-- Key for a proxy token's policy record: `'ZncProxyAuthPolicy.' + token`. -/
def authPolicyKey (token : String) : String := "ZncProxyAuthPolicy." ++ token

/-- Key for a user's set of proxy tokens: `'ZncProxyAuthPolicies.' + user_id`. -/
def authPoliciesKey (userId : String) : String := "ZncProxyAuthPolicies." ++ userId

lemma string_data_append (a b : String) : (a ++ b).data = a.data ++ b.data := by
  cases a; cases b; rfl

lemma string_append_left_cancel {p a b : String} (h : p ++ a = p ++ b) : a = b := by
  have h2 := congrArg String.data h
  rw [string_data_append, string_data_append] at h2
  exact String.ext (List.append_cancel_left h2)

lemma nsoTokenKey_inj {a b : String} (h : nsoTokenKey a = nsoTokenKey b) : a = b :=
  string_append_left_cancel h

lemma authPolicyKey_inj {a b : String} (h : authPolicyKey a = authPolicyKey b) : a = b :=
  string_append_left_cancel h

lemma authPoliciesKey_inj {a b : String} (h : authPoliciesKey a = authPoliciesKey b) : a = b :=
  string_append_left_cancel h

lemma authPolicyKey_ne_authPoliciesKey (t u : String) :
    authPolicyKey t ≠ authPoliciesKey u := by
  intro h
  have h2 := congrArg String.data h
  rw [authPolicyKey, authPoliciesKey, string_data_append, string_data_append] at h2
  simp at h2

lemma nsoTokenKey_ne_naTokenKey (t u : String) : nsoTokenKey t ≠ naTokenKey u := by
  intro h
  have h2 := congrArg String.data h
  rw [nsoTokenKey, naTokenKey, string_data_append, string_data_append] at h2
  simp at h2

lemma getItem_setItem_same (s : Storage) (k : String) (v : StoreVal) :
    getItem (setItem s k v) k = some v := by
  simp [getItem, setItem]

lemma getItem_setItem_other (s : Storage) (k k' : String) (v : StoreVal) (h : k' ≠ k) :
    getItem (setItem s k v) k' = getItem s k' := by
  simp [getItem, setItem, h]

lemma getItem_removeItem_same (s : Storage) (k : String) :
    getItem (removeItem s k) k = none := by
  simp [getItem, removeItem]

lemma getItem_removeItem_other (s : Storage) (k k' : String) (h : k' ≠ k) :
    getItem (removeItem s k) k' = getItem s k' := by
  simp [getItem, removeItem, h]

/-! ## Session tokens and `getToken` -/

/-- The decoded payload of a Nintendo Account session token JWT
(`NintendoAccountSessionTokenJwtPayload`): issuer, type, audience and
expiry (seconds since the epoch). -/
structure JwtPayload where
  iss : String
  typ : String
  aud : String
  exp : Nat
deriving DecidableEq, Repr

/-- A session token string together with the result of structurally
decoding it.  `Jwt.decode` lives in `src/api/util.js`, outside the
provided sources; it either returns the decoded payload or throws on a
malformed token, modelled here by the `payload` field being
`some`/`none` for the token's `raw` string. -/
structure SessionToken where
  raw : String
  payload : Option JwtPayload
deriving DecidableEq, Repr

/-- Modelled from the spec: `ZNCA_CLIENT_ID`, the fixed client id
exported by `src/api/znc.js` (not among the provided sources); the spec
calls it "the fixed client id" and the repository's auth scheme uses
`npf71b963c1b7b6d119`. Only its being a fixed constant matters here. -/
def ZNCA_CLIENT_ID : String := "71b963c1b7b6d119"

/-- The required session-token issuer, `'https://accounts.nintendo.com'`. -/
def nintendoAccountIssuer : String := "https://accounts.nintendo.com"

/-- The required session-token type claim, `'session_token'`. -/
def sessionTokenTyp : String := "session_token"

/-- The errors `getToken` can throw. The first six are thrown before any
network call; `exchangeFailed` propagates a failure of the session-token
exchange itself. -/
inductive GetTokenError where
  | noToken
  | malformedToken
  | invalidIssuer
  | invalidType
  | invalidAudience
  | tokenExpired
  | exchangeFailed (msg : String)
deriving DecidableEq, Repr

/-- The validation errors of the four structural JWT checks
(issuer, type, audience, expiry) — the `InvalidToken` class of the spec's
error taxonomy. -/
def GetTokenError.isInvalidTokenClass : GetTokenError → Bool
  | .invalidIssuer => true
  | .invalidType => true
  | .invalidAudience => true
  | .tokenExpired => true
  | _ => false

/-- The complete outcome of one `getToken` call: the returned credential
(or thrown error), the store after the call, and whether the
session-token exchange network call was made. -/
structure GetTokenOutcome where
  result : Except GetTokenError SavedToken
  storage : Storage
  networkCalled : Bool

/-- Read the cached `SavedToken` under `NsoToken.<token>`; a missing
entry is a cache miss. -/
def getSavedToken (s : Storage) (k : String) : Option SavedToken :=
  match getItem s k with
  | some (.saved t) => some t
  | _ => none

/-- The fresh-exchange path of `getToken`: call
`ZncApi.createWithSessionToken` (or the proxy variant) — modelled by the
`exchange` oracle —, attach `expires_at = Date.now() + expiresIn * 1000`,
persist the bundle under `NsoToken.<token>` and record the reverse
mapping `NintendoAccountToken.<user id> -> token`. -/
def freshExchange (storage : Storage) (token : SessionToken) (now : Nat)
    (exchange : Except String TokenData) : GetTokenOutcome :=
  match exchange with
  | .error msg => ⟨.error (.exchangeFailed msg), storage, true⟩
  | .ok data =>
    let newToken : SavedToken := ⟨data, now + data.credential.expiresIn * 1000⟩
    let s1 := setItem storage (nsoTokenKey token.raw) (.saved newToken)
    let s2 := setItem s1 (naTokenKey data.userId) (.str token.raw)
    ⟨.ok newToken, s2, true⟩

/-- `getToken(storage, token, proxy_url)` from the nso CLI utility
module.  `now` is `Date.now()` in milliseconds; the JWT `exp` claim is in
seconds and the source compares `exp <= Date.now() / 1000`, i.e.
`exp * 1000 ≤ now` in integer arithmetic.  The proxy-vs-direct choice
only selects which API object is constructed and is transparent to the
cache, so it is not a parameter here. -/
def getToken (storage : Storage) (token : SessionToken) (now : Nat)
    (exchange : Except String TokenData) : GetTokenOutcome :=
  if token.raw = "" then ⟨.error .noToken, storage, false⟩
  else match token.payload with
  | none => ⟨.error .malformedToken, storage, false⟩
  | some jwt =>
    if jwt.iss ≠ nintendoAccountIssuer then ⟨.error .invalidIssuer, storage, false⟩
    else if jwt.typ ≠ sessionTokenTyp then ⟨.error .invalidType, storage, false⟩
    else if jwt.aud ≠ ZNCA_CLIENT_ID then ⟨.error .invalidAudience, storage, false⟩
    else if jwt.exp * 1000 ≤ now then ⟨.error .tokenExpired, storage, false⟩
    else
      match getSavedToken storage (nsoTokenKey token.raw) with
      | some existing =>
        if existing.expires_at ≤ now then
          freshExchange storage token now exchange
        else
          ⟨.ok existing,
           setItem storage (naTokenKey existing.data.userId) (.str token.raw),
           false⟩
      | none => freshExchange storage token now exchange

/-- Structural validity of a session token at time `now`: non-empty,
decodable, and passing the four JWT claim checks. -/
def tokenStructurallyValid (token : SessionToken) (now : Nat) : Bool :=
  (token.raw != "") &&
  match token.payload with
  | some jwt =>
    (jwt.iss == nintendoAccountIssuer) && (jwt.typ == sessionTokenTyp) &&
    (jwt.aud == ZNCA_CLIENT_ID) && decide (now < jwt.exp * 1000)
  | none => false

lemma tokenStructurallyValid_elim {token : SessionToken} {now : Nat}
    (h : tokenStructurallyValid token now = true) :
    token.raw ≠ "" ∧ ∃ jwt, token.payload = some jwt ∧
      jwt.iss = nintendoAccountIssuer ∧ jwt.typ = sessionTokenTyp ∧
      jwt.aud = ZNCA_CLIENT_ID ∧ now < jwt.exp * 1000 := by
  unfold tokenStructurallyValid at h
  rcases hp : token.payload with _ | jwt
  · rw [hp] at h; simp at h
  · rw [hp] at h
    simp only [Bool.and_eq_true, bne_iff_ne, beq_iff_eq, decide_eq_true_eq] at h
    obtain ⟨hraw, ⟨⟨hiss, htyp⟩, haud⟩, hexp⟩ := h
    exact ⟨hraw, jwt, rfl, hiss, htyp, haud, hexp⟩

/-- For a structurally valid token, `getToken` reduces to the cache
lookup stage. -/
lemma getToken_valid_eq (storage : Storage) (token : SessionToken) (now : Nat)
    (exchange : Except String TokenData)
    (h : tokenStructurallyValid token now = true) :
    getToken storage token now exchange =
      match getSavedToken storage (nsoTokenKey token.raw) with
      | some existing =>
        if existing.expires_at ≤ now then
          freshExchange storage token now exchange
        else
          ⟨.ok existing,
           setItem storage (naTokenKey existing.data.userId) (.str token.raw),
           false⟩
      | none => freshExchange storage token now exchange := by
  obtain ⟨hraw, jwt, hp, hiss, htyp, haud, hexp⟩ := tokenStructurallyValid_elim h
  have hle : ¬ jwt.exp * 1000 ≤ now := by omega
  unfold getToken
  rw [if_neg hraw, hp]
  simp only [hiss, htyp, haud, ne_eq, not_true_eq_false, if_false, hle, ite_false]

/-! ## HTTP proxy server model (`src/cli/nso/http-server.ts`) -/

/-- Presence data attached to a friend.  The HTTP server treats it as an
opaque JSON value (its fields are defined in `src/api/znc-types.js`,
outside the provided sources, and are never inspected by the server), so
it is carried here as its serialised form. -/
structure Presence where
  raw : String
deriving DecidableEq, Repr

/-- The slice of a `Friend` record the modelled handlers read: the
stable identity `nsaId` and the attached presence. -/
structure Friend where
  nsaId : String
  presence : Presence
deriving DecidableEq, Repr

/-- An announcement, opaque to the server. -/
structure Announcement where
  raw : String
deriving DecidableEq, Repr

/-- The JSON bodies the modelled routes produce. -/
inductive RespBody where
  | errorCode (code : String)
  | errorCodeMessage (code : String) (msg : String)
  | exceptionMessage (msg : String)
  | friendResult (f : Friend) (updated : Nat)
  | presenceBody (entries : List (String × Presence))
  | announcementsBody (l : List Announcement)
deriving DecidableEq, Repr

/-- An HTTP response: status code plus JSON body. -/
structure HttpResponse where
  status : Nat
  body : RespBody
deriving DecidableEq, Repr

/-- Stable error code `'token_unauthorised'`. -/
def errTokenUnauthorised : String := "token_unauthorised"

/-- Stable error code `'not_found'`. -/
def errNotFound : String := "not_found"

/-- `tokenUnauthorised(req, res)`: 403 with `{error: 'token_unauthorised'}`. -/
def tokenUnauthorised : HttpResponse := ⟨403, .errorCode errTokenUnauthorised⟩

/-- The `catch` branches of `nsoAuth`/`getAppData` and route handlers:
500 with `{error: err, error_message: err.message}`. -/
def serverError (msg : String) : HttpResponse := ⟨500, .exceptionMessage msg⟩

/-- The missing-friend response of `/api/znc/friend/:nsaid` (and its
`/presence` variant): 404 with `{error: 'not_found', ...}`. -/
def friendNotFound : HttpResponse :=
  ⟨404, .errorCodeMessage errNotFound ("The user is not friends with the authenticated user.")⟩

/-- The policy middleware of `/api/znc/friend/:nsaid`: denied when the
`friend` capability is falsy, or when a `friends` allowlist is present
and does not contain the requested id. -/
def friendPolicyDenied (p : AuthPolicy) (nsaid : String) : Bool :=
  !p.friend ||
  (match p.friends with
   | some l => !(l.contains nsaid)
   | none => false)

/-- Whether the request passes the `/api/znc/friend/:nsaid` policy
middleware (requests without a proxy-token policy always pass). -/
def friendPolicyAllows (policy : Option AuthPolicy) (nsaid : String) : Bool :=
  match policy with
  | some p => !(friendPolicyDenied p nsaid)
  | none => true

/-- `getAppData`: serve the per-user cached `[friends, webservices,
activeevent, updated]` tuple when `cache.updated + updateInterval >
Date.now()`, otherwise fetch fresh data (the fetch outcome is the
`fetchResult` oracle) and cache it.  Returns the friends list, the
`updated` timestamp and the new cache state, or the fetch error. -/
def appDataStep (cache : Option (List Friend × Nat)) (updateInterval now : Nat)
    (fetchResult : Except String (List Friend)) :
    Except String (List Friend × Nat × Option (List Friend × Nat)) :=
  match cache with
  | some (friends, t) =>
    if now < t + updateInterval then .ok (friends, t, some (friends, t))
    else
      match fetchResult with
      | .error msg => .error msg
      | .ok fresh => .ok (fresh, now, some (fresh, now))
  | none =>
    match fetchResult with
    | .error msg => .error msg
    | .ok fresh => .ok (fresh, now, some (fresh, now))

/-- The `/api/znc/friend/:nsaid` route: policy middleware, `nsoAuth`
(whose `getToken` outcome is the `authResult` oracle; failures become
500 responses), `getAppData`, then the friend lookup by `nsaId`.
Returns the response and the app-data cache after the request. -/
def friendEndpoint (policy : Option AuthPolicy) (nsaid : String)
    (authResult : Except String Unit)
    (cache : Option (List Friend × Nat)) (updateInterval now : Nat)
    (fetchResult : Except String (List Friend)) :
    HttpResponse × Option (List Friend × Nat) :=
  if friendPolicyAllows policy nsaid then
    match authResult with
    | .error msg => (serverError msg, cache)
    | .ok _ =>
      match appDataStep cache updateInterval now fetchResult with
      | .error msg => (serverError msg, cache)
      | .ok (friends, updated, newCache) =>
        match friends.find? (fun f => f.nsaId == nsaid) with
        | none => (friendNotFound, newCache)
        | some f => (⟨200, .friendResult f updated⟩, newCache)
  else (tokenUnauthorised, cache)

/-- The first `continue` guard of the `/api/znc/friends/presence`
handler: skip when a `friends_presence` allowlist is present and does
not contain the friend. -/
def presenceSkipFirst (p : AuthPolicy) (id : String) : Bool :=
  match p.friends_presence with
  | some fp => !(fp.contains id)
  | none => false

/-- The second `continue` guard: skip when a `friends` allowlist is
present, no `friends_presence` allowlist is, and `friends` does not
contain the friend. -/
def presenceSkipSecond (p : AuthPolicy) (id : String) : Bool :=
  match p.friends, p.friends_presence with
  | some fr, none => !(fr.contains id)
  | _, _ => false

/-- The response object of `/api/znc/friends/presence`: one
`nsaId -> presence` entry per friend surviving the policy guards, in
friend-list order. -/
def presenceForFriends (policy : Option AuthPolicy) (friends : List Friend) :
    List (String × Presence) :=
  friends.filterMap fun f =>
    match policy with
    | some p =>
      if presenceSkipFirst p f.nsaId || presenceSkipSecond p f.nsaId then none
      else some (f.nsaId, f.presence)
    | none => some (f.nsaId, f.presence)

/-- The `/api/znc/friends/presence` route: `list_friends_presence`
capability check, `nsoAuth`, `getAppData`, then the filtered presence
map. -/
def friendsPresenceEndpoint (policy : Option AuthPolicy)
    (authResult : Except String Unit)
    (cache : Option (List Friend × Nat)) (updateInterval now : Nat)
    (fetchResult : Except String (List Friend)) :
    HttpResponse × Option (List Friend × Nat) :=
  if (match policy with
      | some p => p.list_friends_presence
      | none => true) then
    match authResult with
    | .error msg => (serverError msg, cache)
    | .ok _ =>
      match appDataStep cache updateInterval now fetchResult with
      | .error msg => (serverError msg, cache)
      | .ok (friends, _, newCache) =>
        (⟨200, .presenceBody (presenceForFriends policy friends)⟩, newCache)
  else (tokenUnauthorised, cache)

/-- The `/api/znc/announcements` route.  `cached_announcements` is a
single module-level variable shared by all requests; the handler serves
it whenever it is non-null, consulting neither the clock nor the
requesting user (`user` and `now` are the request context, unused by the
handler exactly as in the source).  Returns the response, the cache
variable after the request, and whether `req.znc.getAnnouncements()`
was called. -/
def announcementsEndpoint (policy : Option AuthPolicy) (user : String) (now : Nat)
    (cached : Option (List Announcement))
    (authResult : Except String Unit)
    (fetchResult : Except String (List Announcement)) :
    HttpResponse × Option (List Announcement) × Bool :=
  if (match policy with
      | some p => p.announcements
      | none => true) then
    match authResult with
    | .error msg => (serverError msg, cached, false)
    | .ok _ =>
      match cached with
      | some l => (⟨200, .announcementsBody l⟩, cached, false)
      | none =>
        match fetchResult with
        | .error msg => (serverError msg, cached, true)
        | .ok l => (⟨200, .announcementsBody l⟩, some l, true)
  else (tokenUnauthorised, cached, false)

/-! ## Event stream (`ZncPresenceEventStream`) -/

namespace ZncPresenceEventStreamEvent

/-- `ZncPresenceEventStreamEvent.FRIEND_ONLINE = '0'`. -/
def FRIEND_ONLINE : String := "0"

/-- `ZncPresenceEventStreamEvent.FRIEND_OFFLINE = '1'`. -/
def FRIEND_OFFLINE : String := "1"

/-- `ZncPresenceEventStreamEvent.FRIEND_TITLE_CHANGE = '2'`. -/
def FRIEND_TITLE_CHANGE : String := "2"

/-- `ZncPresenceEventStreamEvent.FRIEND_TITLE_STATECHANGE = '3'`. -/
def FRIEND_TITLE_STATECHANGE : String := "3"

end ZncPresenceEventStreamEvent

/-- The payload object of an event-stream data frame:
`{id: friend.nsaId, presence: friend.presence, prev: prev?.presence}`. -/
structure PresenceEventData where
  id : String
  presence : Presence
  prev : Option Presence
deriving DecidableEq, Repr

/-- `JSON.stringify` of the payload object.  `JSON.stringify` omits
properties whose value is `undefined`, hence the `prev` key is absent
when there is no previous presence. -/
def serializeEventData (d : PresenceEventData) : String :=
  "\x7b\"id\":\"" ++ d.id ++ "\",\"presence\":" ++ d.presence.raw ++
  (match d.prev with
   | some p => ",\"prev\":" ++ p.raw
   | none => "") ++ "\x7d"

/-- `sendEvent(event, ...data)`: the strings written to the response
stream — an `event:` line when an event name is given, one `data:` line
per datum, and a blank line terminating the frame. -/
def sendEvent (event : Option String) (data : List String) : List String :=
  (match event with
   | some e => ["event: " ++ e ++ "\n"]
   | none => []) ++
  data.map (fun d => "data: " ++ d ++ "\n") ++ ["\n"]

/-- `onFriendOnline`: frame for a friend coming online. -/
def onFriendOnline (friend : Friend) (prev : Option Friend) : List String :=
  sendEvent (some ZncPresenceEventStreamEvent.FRIEND_ONLINE)
    [serializeEventData ⟨friend.nsaId, friend.presence, prev.map Friend.presence⟩]

/-- `onFriendOffline`: frame for a friend going offline. -/
def onFriendOffline (friend : Friend) (prev : Option Friend) : List String :=
  sendEvent (some ZncPresenceEventStreamEvent.FRIEND_OFFLINE)
    [serializeEventData ⟨friend.nsaId, friend.presence, prev.map Friend.presence⟩]

/-- `onFriendPlayingChangeTitle`: frame for a friend changing title. -/
def onFriendPlayingChangeTitle (friend : Friend) (prev : Option Friend) : List String :=
  sendEvent (some ZncPresenceEventStreamEvent.FRIEND_TITLE_CHANGE)
    [serializeEventData ⟨friend.nsaId, friend.presence, prev.map Friend.presence⟩]

/-- `onFriendTitleStateChange`: frame for a title sub-state change. -/
def onFriendTitleStateChange (friend : Friend) (prev : Option Friend) : List String :=
  sendEvent (some ZncPresenceEventStreamEvent.FRIEND_TITLE_STATECHANGE)
    [serializeEventData ⟨friend.nsaId, friend.presence, prev.map Friend.presence⟩]

/-! ## Proxy token issuance and revocation -/

/-- Read the string list stored at `key`, defaulting to `[]`
(`await storage.getItem(...) ?? []`). -/
def getStrList (s : Storage) (k : String) : List String :=
  match getItem s k with
  | some (.strList l) => l
  | _ => []

/-- `new Set(list)`: membership-faithful JS `Set` construction
(duplicates collapse). -/
def jsSetFromList (l : List String) : List String := l.dedup

/-- `set.add(x)`: no-op when present, insert otherwise. -/
def jsSetAdd (l : List String) (x : String) : List String :=
  if x ∈ l then l else l ++ [x]

/-- `set.delete(x)`. -/
def jsSetDelete (l : List String) (x : String) : List String :=
  l.filter (fun y => y ≠ x)

/-- The `POST /api/znc/tokens` handler body: generate a token (`tok`,
standing for the fresh `uuidgen()` value), store the `AuthToken` record
under `ZncProxyAuthPolicy.<tok>` with `created_at =
Math.floor(Date.now() / 1000)`, and add `tok` to the authenticated
user's token set under `ZncProxyAuthPolicies.<userId>`. -/
def createProxyToken (s : Storage) (userId tok : String) (policy : Option AuthPolicy)
    (now : Nat) : Storage :=
  let auth : AuthToken := ⟨userId, policy, now / 1000⟩
  let s1 := setItem s (authPolicyKey tok) (.auth auth)
  let tokens := jsSetAdd (jsSetFromList (getStrList s1 (authPoliciesKey userId))) tok
  setItem s1 (authPoliciesKey userId) (.strList tokens)

/-- The `DELETE /api/znc/token` handler body: when the bearer token has
a policy record (the `authToken` middleware found it; otherwise the
route answers 403 `no_policy` and changes nothing), remove the record
and delete the token from its owner's token set. -/
def revokeProxyToken (s : Storage) (tok : String) : Storage :=
  match getItem s (authPolicyKey tok) with
  | some (.auth a) =>
    let s1 := removeItem s (authPolicyKey tok)
    let tokens := jsSetDelete (jsSetFromList (getStrList s1 (authPoliciesKey a.user))) tok
    setItem s1 (authPoliciesKey a.user) (.strList tokens)
  | _ => s

/-- The policy record stored for a proxy token, if any. -/
def policyEntry (s : Storage) (tok : String) : Option AuthToken :=
  match getItem s (authPolicyKey tok) with
  | some (.auth a) => some a
  | _ => none

/-- The token set stored for a user. -/
def userTokens (s : Storage) (userId : String) : List String :=
  getStrList s (authPoliciesKey userId)

/-- Consistency of the two proxy-token structures: a token is in a
user's token set exactly when its policy record exists and names that
user as owner. -/
def ProxyTokensConsistent (s : Storage) : Prop :=
  ∀ u t, t ∈ userTokens s u ↔ ∃ a, policyEntry s t = some a ∧ a.user = u

/-! ## Helper lemmas about `getToken` -/

lemma getSavedToken_some_iff {s : Storage} {k : String} {t : SavedToken} :
    getSavedToken s k = some t ↔ getItem s k = some (.saved t) := by
  unfold getSavedToken
  cases h : getItem s k with
  | none => simp
  | some v => cases v <;> simp

lemma getSavedToken_setItem_other (s : Storage) (k k' : String) (v : StoreVal)
    (h : k' ≠ k) : getSavedToken (setItem s k v) k' = getSavedToken s k' := by
  unfold getSavedToken
  rw [getItem_setItem_other _ _ _ _ h]

lemma getToken_hit (storage : Storage) (token : SessionToken) (now : Nat)
    (exchange : Except String TokenData) (ex : SavedToken)
    (hvalid : tokenStructurallyValid token now = true)
    (hget : getSavedToken storage (nsoTokenKey token.raw) = some ex)
    (hfresh : now < ex.expires_at) :
    getToken storage token now exchange =
      ⟨.ok ex, setItem storage (naTokenKey ex.data.userId) (.str token.raw), false⟩ := by
  rw [getToken_valid_eq _ _ _ _ hvalid, hget]
  have hn : ¬ ex.expires_at ≤ now := by omega
  simp [hn]

lemma getToken_miss (storage : Storage) (token : SessionToken) (now : Nat)
    (exchange : Except String TokenData)
    (hvalid : tokenStructurallyValid token now = true)
    (hmiss : getSavedToken storage (nsoTokenKey token.raw) = none ∨
      ∃ ex, getSavedToken storage (nsoTokenKey token.raw) = some ex ∧ ex.expires_at ≤ now) :
    getToken storage token now exchange = freshExchange storage token now exchange := by
  rw [getToken_valid_eq _ _ _ _ hvalid]
  rcases hmiss with h | ⟨ex, hg, hs⟩
  · rw [h]
  · rw [hg]
    simp [hs]

lemma freshExchange_ok (storage : Storage) (token : SessionToken) (now : Nat)
    (d : TokenData) :
    freshExchange storage token now (.ok d) =
      ⟨.ok ⟨d, now + d.credential.expiresIn * 1000⟩,
       setItem (setItem storage (nsoTokenKey token.raw)
           (.saved ⟨d, now + d.credential.expiresIn * 1000⟩))
         (naTokenKey d.userId) (.str token.raw),
       true⟩ := rfl

lemma freshExchange_error (storage : Storage) (token : SessionToken) (now : Nat)
    (m : String) :
    freshExchange storage token now (.error m) =
      ⟨.error (.exchangeFailed m), storage, true⟩ := rfl

/-! ## Concrete values used by witnesses -/

/-- A structurally valid session token string. -/
def rawTok : String := "session-token-1"

/-- A JWT payload passing all four checks at `now = 1000` ms
(`exp = 2` s, i.e. 2000 ms). -/
def jwtOk : JwtPayload := ⟨nintendoAccountIssuer, sessionTokenTyp, ZNCA_CLIENT_ID, 2⟩

/-- A structurally valid session token. -/
def tokOk : SessionToken := ⟨rawTok, some jwtOk⟩

/-- Exchange data with `expiresIn = 3600` seconds. -/
def dataW : TokenData := ⟨"uuid-1", "user-1", ⟨"access-1", 3600⟩, "rest-1"⟩

/-- A cached credential valid until 1500 ms. -/
def savedW : SavedToken := ⟨dataW, 1500⟩

/-- Older exchange data, for a stale cache entry. -/
def dataOld : TokenData := ⟨"uuid-0", "user-0", ⟨"access-0", 60⟩, "rest-0"⟩

/-- A cached credential stale at 1000 ms (expired at 500 ms). -/
def savedOld : SavedToken := ⟨dataOld, 500⟩

/-- A store whose token cache holds `savedW` for `rawTok`. -/
def storageHit : Storage := setItem emptyStorage (nsoTokenKey rawTok) (.saved savedW)

/-- A store whose token cache holds the stale `savedOld` for `rawTok`. -/
def storageStale : Storage := setItem emptyStorage (nsoTokenKey rawTok) (.saved savedOld)

/-- A session token whose `aud` claim is not the configured client id. -/
def jwtBadAud : JwtPayload := ⟨nintendoAccountIssuer, sessionTokenTyp, "other-client", 2⟩

/-- A session token failing the audience check. -/
def tokBadAud : SessionToken := ⟨"session-token-bad", some jwtBadAud⟩

/-! ## Claims about `getToken` -/

/-- Claim C1: with a structurally valid session token, a cached
credential whose `expires_at` is strictly in the future is returned
exactly as stored with no exchange performed; an absent or stale entry
makes `getToken` perform a fresh exchange and store the new credential,
the stale stored value remaining in place verbatim unless and until that
overwrite happens (in particular it is untouched when the exchange
fails). -/
theorem getToken_cache_semantics (storage : Storage) (token : SessionToken) (now : Nat)
    (exchange : Except String TokenData)
    (hvalid : tokenStructurallyValid token now = true) :
    (∀ ex, getSavedToken storage (nsoTokenKey token.raw) = some ex →
      now < ex.expires_at →
      (getToken storage token now exchange).result = .ok ex ∧
      (getToken storage token now exchange).networkCalled = false ∧
      getSavedToken (getToken storage token now exchange).storage
        (nsoTokenKey token.raw) = some ex) ∧
    ((getSavedToken storage (nsoTokenKey token.raw) = none ∨
      ∃ ex, getSavedToken storage (nsoTokenKey token.raw) = some ex ∧
        ex.expires_at ≤ now) →
      (getToken storage token now exchange).networkCalled = true ∧
      (∀ d, exchange = .ok d →
        getSavedToken (getToken storage token now exchange).storage
          (nsoTokenKey token.raw) = some ⟨d, now + d.credential.expiresIn * 1000⟩) ∧
      (∀ m, exchange = .error m →
        (getToken storage token now exchange).storage = storage)) := by
  constructor
  · intro ex hget hfresh
    rw [getToken_hit storage token now exchange ex hvalid hget hfresh]
    refine ⟨rfl, rfl, ?_⟩
    rw [getSavedToken_setItem_other _ _ _ _ (nsoTokenKey_ne_naTokenKey _ _)]
    exact hget
  · intro hmiss
    rw [getToken_miss storage token now exchange hvalid hmiss]
    refine ⟨?_, ?_, ?_⟩
    · cases exchange <;> rfl
    · intro d hd
      rw [hd, freshExchange_ok]
      rw [getSavedToken_setItem_other _ _ _ _ (nsoTokenKey_ne_naTokenKey _ _)]
      rw [getSavedToken_some_iff]
      exact getItem_setItem_same _ _ _
    · intro m hm
      rw [hm, freshExchange_error]

/-- Witness for C1 at concrete inputs: a cache hit at `now = 1000` on an
entry expiring at 1500 returns the stored credential with no network
call, and on the empty store the same call performs the exchange. -/
theorem getToken_cache_semantics_witness :
    ((getToken storageHit tokOk 1000 (Except.ok dataW)).result = .ok savedW ∧
     (getToken storageHit tokOk 1000 (Except.ok dataW)).networkCalled = false) ∧
    (getToken emptyStorage tokOk 1000 (Except.ok dataW)).networkCalled = true := by
  have h1 := (getToken_cache_semantics storageHit tokOk 1000 (Except.ok dataW)
    (by decide)).1 savedW (by decide) (by decide)
  have h2 := (getToken_cache_semantics emptyStorage tokOk 1000 (Except.ok dataW)
    (by decide)).2 (Or.inl (by decide))
  exact ⟨⟨h1.1, h1.2.1⟩, h2.1⟩

/-- Claim C2: for a decodable session token violating any of the four
structural checks (issuer, type, audience, expiry strictly after now),
`getToken` fails with an `InvalidToken`-class error, makes no network
call, and writes nothing to the store. -/
theorem getToken_validation_guards (storage : Storage) (token : SessionToken)
    (now : Nat) (exchange : Except String TokenData) (jwt : JwtPayload)
    (hp : token.payload = some jwt) (hraw : token.raw ≠ "")
    (hviol : jwt.iss ≠ nintendoAccountIssuer ∨ jwt.typ ≠ sessionTokenTyp ∨
      jwt.aud ≠ ZNCA_CLIENT_ID ∨ jwt.exp * 1000 ≤ now) :
    ∃ e, (getToken storage token now exchange).result = Except.error e ∧
      e.isInvalidTokenClass = true ∧
      (getToken storage token now exchange).networkCalled = false ∧
      (getToken storage token now exchange).storage = storage := by
  unfold getToken
  rw [if_neg hraw, hp]
  by_cases h1 : jwt.iss = nintendoAccountIssuer
  · by_cases h2 : jwt.typ = sessionTokenTyp
    · by_cases h3 : jwt.aud = ZNCA_CLIENT_ID
      · by_cases h4 : jwt.exp * 1000 ≤ now
        · exact ⟨.tokenExpired, by simp [h1, h2, h3, h4, GetTokenError.isInvalidTokenClass]⟩
        · rcases hviol with h | h | h | h
          · exact absurd h1 h
          · exact absurd h2 h
          · exact absurd h3 h
          · exact absurd h h4
      · exact ⟨.invalidAudience, by simp [h1, h2, h3, GetTokenError.isInvalidTokenClass]⟩
    · exact ⟨.invalidType, by simp [h1, h2, GetTokenError.isInvalidTokenClass]⟩
  · exact ⟨.invalidIssuer, by simp [h1, GetTokenError.isInvalidTokenClass]⟩

/-- Witness for C2: the spec's scenario — a session token with `aud` not
equal to the configured client id fails before any network call and
without touching the store. -/
theorem getToken_validation_guards_witness :
    ∃ e, (getToken emptyStorage tokBadAud 1000 (Except.ok dataW)).result =
        Except.error e ∧
      e.isInvalidTokenClass = true ∧
      (getToken emptyStorage tokBadAud 1000 (Except.ok dataW)).networkCalled = false ∧
      (getToken emptyStorage tokBadAud 1000 (Except.ok dataW)).storage = emptyStorage :=
  getToken_validation_guards emptyStorage tokBadAud 1000 (Except.ok dataW) jwtBadAud
    rfl (by decide) (Or.inr (Or.inr (Or.inl (by decide))))

/-- Claim C3: a fresh exchange completing at time `now` with a
credential carrying `expiresIn` seconds persists (and returns) a
credential with `expires_at = now + expiresIn * 1000` milliseconds. -/
theorem getToken_stores_expiry (storage : Storage) (token : SessionToken) (now : Nat)
    (exchange : Except String TokenData) (d : TokenData)
    (hvalid : tokenStructurallyValid token now = true)
    (hmiss : getSavedToken storage (nsoTokenKey token.raw) = none ∨
      ∃ ex, getSavedToken storage (nsoTokenKey token.raw) = some ex ∧
        ex.expires_at ≤ now)
    (hex : exchange = .ok d) :
    getSavedToken (getToken storage token now exchange).storage
      (nsoTokenKey token.raw) = some ⟨d, now + d.credential.expiresIn * 1000⟩ ∧
    (getToken storage token now exchange).result =
      .ok ⟨d, now + d.credential.expiresIn * 1000⟩ := by
  rw [getToken_miss storage token now exchange hvalid hmiss, hex, freshExchange_ok]
  refine ⟨?_, rfl⟩
  rw [getSavedToken_setItem_other _ _ _ _ (nsoTokenKey_ne_naTokenKey _ _)]
  rw [getSavedToken_some_iff]
  exact getItem_setItem_same _ _ _

/-- Witness for C3: the spec's scenario — `expiresIn = 3600` at
`now = 1000` stores `expires_at = 1000 + 3,600,000 = 3,601,000` ms. -/
theorem getToken_stores_expiry_witness :
    getSavedToken (getToken emptyStorage tokOk 1000 (Except.ok dataW)).storage
      (nsoTokenKey tokOk.raw) = some ⟨dataW, 3601000⟩ := by
  have h := getToken_stores_expiry emptyStorage tokOk 1000 (Except.ok dataW) dataW
    (by decide) (Or.inl (by decide)) rfl
  simpa [dataW] using h.1

/-- Claim C4: the token cache keys credentials by session token and a
refresh overwrites the entry wholesale: whatever credential was stored
before, after a refresh the key holds exactly the credential built from
the fresh exchange data, with no field of the previous entry surviving. -/
theorem tokenCache_overwrites_wholesale (storage : Storage) (token : SessionToken)
    (now : Nat) (exchange : Except String TokenData) (d : TokenData)
    (old : SavedToken)
    (hvalid : tokenStructurallyValid token now = true)
    (hprev : getItem storage (nsoTokenKey token.raw) = some (.saved old))
    (hstale : old.expires_at ≤ now)
    (hex : exchange = .ok d) :
    getItem (getToken storage token now exchange).storage (nsoTokenKey token.raw) =
      some (.saved ⟨d, now + d.credential.expiresIn * 1000⟩) := by
  have hmiss : getSavedToken storage (nsoTokenKey token.raw) = some old :=
    getSavedToken_some_iff.mpr hprev
  rw [getToken_miss storage token now exchange hvalid (Or.inr ⟨old, hmiss, hstale⟩),
    hex, freshExchange_ok]
  rw [getItem_setItem_other _ _ _ _ (nsoTokenKey_ne_naTokenKey _ _)]
  exact getItem_setItem_same _ _ _

/-- Witness for C4: refreshing over the stale `savedOld` entry leaves
exactly the credential built from the fresh exchange data under that
key. -/
theorem tokenCache_overwrites_wholesale_witness :
    getItem (getToken storageStale tokOk 1000 (Except.ok dataW)).storage
      (nsoTokenKey tokOk.raw) = some (.saved ⟨dataW, 1000 + dataW.credential.expiresIn * 1000⟩) :=
  tokenCache_overwrites_wholesale storageStale tokOk 1000 (Except.ok dataW) dataW
    savedOld (by decide) (by decide) (by decide) rfl

/-- Claim C5: every successful `getToken` resolution — fresh exchange or
cache hit — records the reverse mapping from the resolved credential's
stable user id to the session token under
`NintendoAccountToken.<user id>`. -/
theorem getToken_records_reverse_mapping (storage : Storage) (token : SessionToken)
    (now : Nat) (exchange : Except String TokenData) (r : SavedToken)
    (hvalid : tokenStructurallyValid token now = true)
    (hok : (getToken storage token now exchange).result = .ok r) :
    getItem (getToken storage token now exchange).storage
      (naTokenKey r.data.userId) = some (.str token.raw) := by
  cases hget : getSavedToken storage (nsoTokenKey token.raw) with
  | some ex =>
    by_cases hstale : ex.expires_at ≤ now
    · rw [getToken_miss storage token now exchange hvalid (Or.inr ⟨ex, hget, hstale⟩)] at hok ⊢
      cases exchange with
      | error m => rw [freshExchange_error] at hok; exact absurd hok (by simp)
      | ok d =>
        rw [freshExchange_ok] at hok ⊢
        have hr : r = ⟨d, now + d.credential.expiresIn * 1000⟩ := by
          simpa using hok.symm
        rw [hr]
        exact getItem_setItem_same _ _ _
    · have hfresh : now < ex.expires_at := by omega
      rw [getToken_hit storage token now exchange ex hvalid hget hfresh] at hok ⊢
      have hr : r = ex := by simpa using hok.symm
      rw [hr]
      exact getItem_setItem_same _ _ _
  | none =>
    rw [getToken_miss storage token now exchange hvalid (Or.inl hget)] at hok ⊢
    cases exchange with
    | error m => rw [freshExchange_error] at hok; exact absurd hok (by simp)
    | ok d =>
      rw [freshExchange_ok] at hok ⊢
      have hr : r = ⟨d, now + d.credential.expiresIn * 1000⟩ := by
        simpa using hok.symm
      rw [hr]
      exact getItem_setItem_same _ _ _

/-- Witness for C5: after the cache hit on `storageHit`, the reverse
mapping for `savedW`'s user points at the session token used. -/
theorem getToken_records_reverse_mapping_witness :
    getItem (getToken storageHit tokOk 1000 (Except.ok dataW)).storage
      (naTokenKey savedW.data.userId) = some (.str tokOk.raw) :=
  getToken_records_reverse_mapping storageHit tokOk 1000 (Except.ok dataW) savedW
    (by decide) (by rfl)

/-! ## Claims about the HTTP proxy -/

/-- Claim C6: the proxy maps internal failures to JSON error bodies with
stable error codes — a policy/authorization failure answers 403
`token_unauthorised`, an upstream failure (the `nsoAuth` token exchange
or the app-data fetch) answers 500, and a request for a friend absent
from the cached friend list answers 404 with error code `not_found`. -/
theorem httpServer_error_mapping (policy : Option AuthPolicy) (nsaid : String)
    (authResult : Except String Unit) (cache : Option (List Friend × Nat))
    (updateInterval now : Nat) (fetchResult : Except String (List Friend)) :
    (friendPolicyAllows policy nsaid = false →
      (friendEndpoint policy nsaid authResult cache updateInterval now
        fetchResult).1.status = 403 ∧
      (friendEndpoint policy nsaid authResult cache updateInterval now
        fetchResult).1.body = .errorCode errTokenUnauthorised) ∧
    (friendPolicyAllows policy nsaid = true →
      (∀ m, authResult = .error m →
        (friendEndpoint policy nsaid authResult cache updateInterval now
          fetchResult).1.status = 500) ∧
      (∀ m, authResult = Except.ok () →
        appDataStep cache updateInterval now fetchResult = .error m →
        (friendEndpoint policy nsaid authResult cache updateInterval now
          fetchResult).1.status = 500) ∧
      (∀ friends updated newCache, authResult = Except.ok () →
        appDataStep cache updateInterval now fetchResult =
          .ok (friends, updated, newCache) →
        friends.find? (fun f => f.nsaId == nsaid) = none →
        (friendEndpoint policy nsaid authResult cache updateInterval now
          fetchResult).1.status = 404 ∧
        (friendEndpoint policy nsaid authResult cache updateInterval now
          fetchResult).1.body =
          .errorCodeMessage errNotFound
            ("The user is not friends with the authenticated user."))) := by
  constructor
  · intro h
    simp [friendEndpoint, h, tokenUnauthorised]
  · intro h
    refine ⟨?_, ?_, ?_⟩
    · intro m hm
      subst hm
      simp [friendEndpoint, h, serverError]
    · intro m ha hstep
      subst ha
      simp only [friendEndpoint, h, if_true, ite_true]
      rw [hstep]
      simp [serverError]
    · intro friends updated newCache ha hstep hfind
      subst ha
      simp only [friendEndpoint, h, if_true, ite_true]
      rw [hstep]
      simp [hfind, friendNotFound]

/-- A policy granting nothing. -/
def policyDenyAll : AuthPolicy :=
  ⟨false, false, false, false, false, false, false, false, false, none, none⟩

/-- A friend used in witnesses. -/
def friendA : Friend := ⟨"nsa-a", ⟨"presence-a"⟩⟩

/-- Witness for C6 at concrete inputs: a deny-all policy yields 403, a
failing fetch yields 500, and looking up an id not in the fetched
friend list yields 404 `not_found`. -/
theorem httpServer_error_mapping_witness :
    ((friendEndpoint (some policyDenyAll) ("nsa-a") (Except.ok ()) none 30000 1000
        (Except.ok [friendA])).1.status = 403 ∧
     (friendEndpoint (some policyDenyAll) ("nsa-a") (Except.ok ()) none 30000 1000
        (Except.ok [friendA])).1.body = .errorCode errTokenUnauthorised) ∧
    (friendEndpoint none ("nsa-a") (Except.ok ()) none 30000 1000
        (Except.error ("upstream down"))).1.status = 500 ∧
    (friendEndpoint none ("nsa-x") (Except.ok ()) none 30000 1000
        (Except.ok [friendA])).1.status = 404 := by
  refine ⟨?_, ?_, ?_⟩
  · exact (httpServer_error_mapping (some policyDenyAll) ("nsa-a") (Except.ok ()) none
      30000 1000 (Except.ok [friendA])).1 (by decide)
  · exact ((httpServer_error_mapping none ("nsa-a") (Except.ok ()) none 30000 1000
      (Except.error ("upstream down"))).2 (by decide)).2.1 ("upstream down") rfl (by rfl)
  · exact (((httpServer_error_mapping none ("nsa-x") (Except.ok ()) none 30000 1000
      (Except.ok [friendA])).2 (by decide)).2.2 [friendA] 1000 (some ([friendA], 1000))
      rfl (by rfl) (by decide)).1

lemma presenceForFriends_mem {p : AuthPolicy} {friends : List Friend}
    {e : String × Presence} (he : e ∈ presenceForFriends (some p) friends) :
    ∃ f ∈ friends, e = (f.nsaId, f.presence) ∧
      presenceSkipFirst p f.nsaId = false ∧ presenceSkipSecond p f.nsaId = false := by
  unfold presenceForFriends at he
  rw [List.mem_filterMap] at he
  obtain ⟨f, hf, hfe⟩ := he
  have hfe2 : (if (presenceSkipFirst p f.nsaId || presenceSkipSecond p f.nsaId) = true
      then (none : Option (String × Presence))
      else some (f.nsaId, f.presence)) = some e := hfe
  by_cases h : (presenceSkipFirst p f.nsaId || presenceSkipSecond p f.nsaId) = true
  · rw [if_pos h] at hfe2
    exact absurd hfe2 (by simp)
  · rw [if_neg h] at hfe2
    simp only [Bool.or_eq_true, not_or, Bool.not_eq_true] at h
    exact ⟨f, hf, by simpa using hfe2.symm, h.1, h.2⟩

lemma friendsPresenceEndpoint_body {policy : Option AuthPolicy}
    {authResult : Except String Unit} {cache : Option (List Friend × Nat)}
    {updateInterval now : Nat} {fetchResult : Except String (List Friend)}
    {entries : List (String × Presence)}
    (hbody : (friendsPresenceEndpoint policy authResult cache updateInterval now
        fetchResult).1.body = .presenceBody entries) :
    ∃ friends, entries = presenceForFriends policy friends := by
  unfold friendsPresenceEndpoint at hbody
  set c := (match policy with
    | some p => p.list_friends_presence
    | none => true) with hc
  by_cases hcap : c = true
  · rw [if_pos hcap] at hbody
    cases authResult with
    | error m => simp [serverError] at hbody
    | ok u =>
      cases u
      cases hstep : appDataStep cache updateInterval now fetchResult with
      | error m =>
        rw [hstep] at hbody
        simp [serverError] at hbody
      | ok t =>
        obtain ⟨friends, updated, newCache⟩ := t
        rw [hstep] at hbody
        simp at hbody
        exact ⟨friends, hbody.symm⟩
  · rw [if_neg hcap] at hbody
    simp [tokenUnauthorised] at hbody

/-- Claim C7: when the proxy-token policy carries a friend-id allowlist
(`friends_presence` when present, otherwise `friends`), every entry of
the `/api/znc/friends/presence` response object belongs to a friend
whose `nsaId` is in that allowlist — no presence data of a friend
outside it is ever included. -/
theorem friendsPresence_allowlist (p : AuthPolicy) (authResult : Except String Unit)
    (cache : Option (List Friend × Nat)) (updateInterval now : Nat)
    (fetchResult : Except String (List Friend)) (allow : List String)
    (entries : List (String × Presence))
    (hbody : (friendsPresenceEndpoint (some p) authResult cache updateInterval now
        fetchResult).1.body = .presenceBody entries) :
    (p.friends_presence = some allow → ∀ e ∈ entries, e.1 ∈ allow) ∧
    (p.friends_presence = none → p.friends = some allow →
      ∀ e ∈ entries, e.1 ∈ allow) := by
  obtain ⟨friends, hentries⟩ := friendsPresenceEndpoint_body hbody
  subst hentries
  constructor
  · intro hfp e he
    obtain ⟨f, _, hef, hskip1, _⟩ := presenceForFriends_mem he
    rw [hef]
    unfold presenceSkipFirst at hskip1
    rw [hfp] at hskip1
    simpa using hskip1
  · intro hfp hfr e he
    obtain ⟨f, _, hef, _, hskip2⟩ := presenceForFriends_mem he
    rw [hef]
    unfold presenceSkipSecond at hskip2
    rw [hfp, hfr] at hskip2
    simpa using hskip2

/-- A policy allowing presence listing for the single friend `nsa-a`. -/
def policyAllowA : AuthPolicy :=
  ⟨false, false, true, false, false, false, false, false, false, none,
   some ["nsa-a"]⟩

/-- A friend outside `policyAllowA`'s allowlist. -/
def friendB : Friend := ⟨"nsa-b", ⟨"presence-b"⟩⟩

/-- Witness for C7 at concrete inputs: with the allowlist `[nsa-a]` and
fetched friends `[friendA, friendB]`, the response carries exactly
`friendA`'s presence, and its entry is in the allowlist. -/
theorem friendsPresence_allowlist_witness :
    (friendsPresenceEndpoint (some policyAllowA) (Except.ok ()) none 30000 1000
      (Except.ok [friendA, friendB])).1.body =
      .presenceBody [(friendA.nsaId, friendA.presence)] ∧
    friendA.nsaId ∈ (["nsa-a"] : List String) := by
  have hbody : (friendsPresenceEndpoint (some policyAllowA) (Except.ok ()) none 30000
      1000 (Except.ok [friendA, friendB])).1.body =
      .presenceBody [(friendA.nsaId, friendA.presence)] := by decide
  have h := (friendsPresence_allowlist policyAllowA (Except.ok ()) none 30000 1000
    (Except.ok [friendA, friendB]) (["nsa-a"]) [(friendA.nsaId, friendA.presence)]
    hbody).1 rfl
  exact ⟨hbody, h (friendA.nsaId, friendA.presence) (by simp)⟩

/-- Claim C8: each transition event is emitted as line-delimited
`event:`/`data:` frames whose event-type code is exactly `'0'` for
FriendOnline, `'1'` for FriendOffline, `'2'` for TitleChange and `'3'`
for TitleStateChange, with the data frame carrying the subject's id,
new presence and previous presence. -/
theorem eventStream_frames (friend : Friend) (prev : Option Friend) :
    (ZncPresenceEventStreamEvent.FRIEND_ONLINE = "0" ∧
     onFriendOnline friend prev =
       ["event: " ++ ZncPresenceEventStreamEvent.FRIEND_ONLINE ++ "\n",
        "data: " ++ serializeEventData
          ⟨friend.nsaId, friend.presence, prev.map Friend.presence⟩ ++ "\n",
        "\n"]) ∧
    (ZncPresenceEventStreamEvent.FRIEND_OFFLINE = "1" ∧
     onFriendOffline friend prev =
       ["event: " ++ ZncPresenceEventStreamEvent.FRIEND_OFFLINE ++ "\n",
        "data: " ++ serializeEventData
          ⟨friend.nsaId, friend.presence, prev.map Friend.presence⟩ ++ "\n",
        "\n"]) ∧
    (ZncPresenceEventStreamEvent.FRIEND_TITLE_CHANGE = "2" ∧
     onFriendPlayingChangeTitle friend prev =
       ["event: " ++ ZncPresenceEventStreamEvent.FRIEND_TITLE_CHANGE ++ "\n",
        "data: " ++ serializeEventData
          ⟨friend.nsaId, friend.presence, prev.map Friend.presence⟩ ++ "\n",
        "\n"]) ∧
    (ZncPresenceEventStreamEvent.FRIEND_TITLE_STATECHANGE = "3" ∧
     onFriendTitleStateChange friend prev =
       ["event: " ++ ZncPresenceEventStreamEvent.FRIEND_TITLE_STATECHANGE ++ "\n",
        "data: " ++ serializeEventData
          ⟨friend.nsaId, friend.presence, prev.map Friend.presence⟩ ++ "\n",
        "\n"]) :=
  ⟨⟨rfl, rfl⟩, ⟨rfl, rfl⟩, ⟨rfl, rfl⟩, ⟨rfl, rfl⟩⟩

/-! ## Helper lemmas for proxy token consistency -/

lemma mem_jsSetFromList {l : List String} {x : String} :
    x ∈ jsSetFromList l ↔ x ∈ l := List.mem_dedup

lemma mem_jsSetAdd {l : List String} {x y : String} :
    y ∈ jsSetAdd l x ↔ y ∈ l ∨ y = x := by
  unfold jsSetAdd
  by_cases h : x ∈ l
  · rw [if_pos h]
    constructor
    · exact Or.inl
    · rintro (h2 | rfl)
      · exact h2
      · exact h
  · rw [if_neg h]
    simp

lemma mem_jsSetDelete {l : List String} {x y : String} :
    y ∈ jsSetDelete l x ↔ y ∈ l ∧ y ≠ x := by
  unfold jsSetDelete
  simp [List.mem_filter]

lemma getStrList_setItem_same (s : Storage) (k : String) (l : List String) :
    getStrList (setItem s k (.strList l)) k = l := by
  unfold getStrList
  rw [getItem_setItem_same]

lemma getStrList_setItem_other (s : Storage) (k k' : String) (v : StoreVal)
    (h : k' ≠ k) : getStrList (setItem s k v) k' = getStrList s k' := by
  unfold getStrList
  rw [getItem_setItem_other _ _ _ _ h]

lemma getStrList_removeItem_other (s : Storage) (k k' : String) (h : k' ≠ k) :
    getStrList (removeItem s k) k' = getStrList s k' := by
  unfold getStrList
  rw [getItem_removeItem_other _ _ _ h]

lemma policyEntry_setItem_auth_same (s : Storage) (tok : String) (a : AuthToken) :
    policyEntry (setItem s (authPolicyKey tok) (.auth a)) tok = some a := by
  unfold policyEntry
  rw [getItem_setItem_same]

lemma policyEntry_setItem_policyKey_other (s : Storage) (tok t : String)
    (v : StoreVal) (h : t ≠ tok) :
    policyEntry (setItem s (authPolicyKey tok) v) t = policyEntry s t := by
  unfold policyEntry
  rw [getItem_setItem_other _ _ _ _ (fun hk => h (authPolicyKey_inj hk))]

lemma policyEntry_setItem_policiesKey (s : Storage) (u t : String) (v : StoreVal) :
    policyEntry (setItem s (authPoliciesKey u) v) t = policyEntry s t := by
  unfold policyEntry
  rw [getItem_setItem_other _ _ _ _ (authPolicyKey_ne_authPoliciesKey t u)]

lemma policyEntry_removeItem_same (s : Storage) (tok : String) :
    policyEntry (removeItem s (authPolicyKey tok)) tok = none := by
  unfold policyEntry
  rw [getItem_removeItem_same]

lemma policyEntry_removeItem_other (s : Storage) (tok t : String) (h : t ≠ tok) :
    policyEntry (removeItem s (authPolicyKey tok)) t = policyEntry s t := by
  unfold policyEntry
  rw [getItem_removeItem_other _ _ _ (fun hk => h (authPolicyKey_inj hk))]

lemma userTokens_setItem_policyKey (s : Storage) (tok u : String) (v : StoreVal) :
    userTokens (setItem s (authPolicyKey tok) v) u = userTokens s u := by
  unfold userTokens
  exact getStrList_setItem_other _ _ _ _
    (fun hk => authPolicyKey_ne_authPoliciesKey tok u hk.symm)

lemma userTokens_removeItem_policyKey (s : Storage) (tok u : String) :
    userTokens (removeItem s (authPolicyKey tok)) u = userTokens s u := by
  unfold userTokens
  exact getStrList_removeItem_other _ _ _
    (fun hk => authPolicyKey_ne_authPoliciesKey tok u hk.symm)

lemma userTokens_setItem_policiesKey_same (s : Storage) (u : String)
    (l : List String) :
    userTokens (setItem s (authPoliciesKey u) (.strList l)) u = l := by
  unfold userTokens
  exact getStrList_setItem_same _ _ _

lemma userTokens_setItem_policiesKey_other (s : Storage) (u u' : String)
    (v : StoreVal) (h : u' ≠ u) :
    userTokens (setItem s (authPoliciesKey u) v) u' = userTokens s u' := by
  unfold userTokens
  exact getStrList_setItem_other _ _ _ _ (fun hk => h (authPoliciesKey_inj hk))

lemma userTokens_createProxyToken (s : Storage) (userId tok : String)
    (policy : Option AuthPolicy) (now : Nat) (u : String) :
    userTokens (createProxyToken s userId tok policy now) u =
      if u = userId then jsSetAdd (jsSetFromList (userTokens s userId)) tok
      else userTokens s u := by
  unfold createProxyToken
  by_cases hu : u = userId
  · subst hu
    rw [if_pos rfl, userTokens_setItem_policiesKey_same]
    unfold userTokens
    rw [getStrList_setItem_other _ _ _ _
      (fun hk => authPolicyKey_ne_authPoliciesKey _ _ hk.symm)]
  · rw [if_neg hu, userTokens_setItem_policiesKey_other _ _ _ _ hu,
      userTokens_setItem_policyKey]

lemma policyEntry_createProxyToken (s : Storage) (userId tok : String)
    (policy : Option AuthPolicy) (now : Nat) (t : String) :
    policyEntry (createProxyToken s userId tok policy now) t =
      if t = tok then some ⟨userId, policy, now / 1000⟩ else policyEntry s t := by
  unfold createProxyToken
  rw [policyEntry_setItem_policiesKey]
  by_cases ht : t = tok
  · subst ht
    rw [if_pos rfl, policyEntry_setItem_auth_same]
  · rw [if_neg ht, policyEntry_setItem_policyKey_other _ _ _ _ ht]

lemma revokeProxyToken_eq (s : Storage) (tok : String) :
    revokeProxyToken s tok =
      match policyEntry s tok with
      | some a =>
        setItem (removeItem s (authPolicyKey tok)) (authPoliciesKey a.user)
          (.strList (jsSetDelete (jsSetFromList (getStrList
            (removeItem s (authPolicyKey tok)) (authPoliciesKey a.user))) tok))
      | none => s := by
  unfold revokeProxyToken policyEntry
  cases h : getItem s (authPolicyKey tok) with
  | none => rfl
  | some v => cases v <;> rfl

lemma userTokens_revokeProxyToken_of_entry (s : Storage) (tok : String)
    (a : AuthToken) (h : policyEntry s tok = some a) (u : String) :
    userTokens (revokeProxyToken s tok) u =
      if u = a.user then jsSetDelete (jsSetFromList (userTokens s a.user)) tok
      else userTokens s u := by
  rw [revokeProxyToken_eq, h]
  by_cases hu : u = a.user
  · subst hu
    rw [if_pos rfl, userTokens_setItem_policiesKey_same]
    unfold userTokens
    rw [getStrList_removeItem_other _ _ _
      (fun hk => authPolicyKey_ne_authPoliciesKey _ _ hk.symm)]
  · rw [if_neg hu, userTokens_setItem_policiesKey_other _ _ _ _ hu,
      userTokens_removeItem_policyKey]

lemma policyEntry_revokeProxyToken_of_entry (s : Storage) (tok : String)
    (a : AuthToken) (h : policyEntry s tok = some a) (t : String) :
    policyEntry (revokeProxyToken s tok) t =
      if t = tok then none else policyEntry s t := by
  rw [revokeProxyToken_eq, h, policyEntry_setItem_policiesKey]
  by_cases ht : t = tok
  · subst ht
    rw [if_pos rfl, policyEntry_removeItem_same]
  · rw [if_neg ht, policyEntry_removeItem_other _ _ _ ht]

lemma revokeProxyToken_of_no_entry (s : Storage) (tok : String)
    (h : policyEntry s tok = none) : revokeProxyToken s tok = s := by
  rw [revokeProxyToken_eq, h]

lemma proxyTokensConsistent_empty : ProxyTokensConsistent emptyStorage := by
  intro u t
  simp [userTokens, getStrList, getItem, emptyStorage, policyEntry]

/-- Claim C9: token issuance writes the per-token policy record and adds
the token to its owner's token set; revocation removes both; each
operation preserves the invariant that a token belongs to a user's set
exactly when its policy record exists and names that user (issuance
assumes the generated token is fresh, as `uuidgen()` guarantees). -/
theorem proxyTokens_consistency (s : Storage) (hInv : ProxyTokensConsistent s) :
    (∀ userId tok policy now, policyEntry s tok = none →
      ProxyTokensConsistent (createProxyToken s userId tok policy now) ∧
      tok ∈ userTokens (createProxyToken s userId tok policy now) userId ∧
      policyEntry (createProxyToken s userId tok policy now) tok =
        some ⟨userId, policy, now / 1000⟩) ∧
    (∀ tok, ProxyTokensConsistent (revokeProxyToken s tok) ∧
      policyEntry (revokeProxyToken s tok) tok = none ∧
      ∀ u, tok ∉ userTokens (revokeProxyToken s tok) u) := by
  constructor
  · intro userId tok policy now hnone
    refine ⟨?_, ?_, ?_⟩
    · intro u t
      rw [userTokens_createProxyToken, policyEntry_createProxyToken]
      by_cases ht : t = tok
      · subst ht
        by_cases hu : u = userId
        · subst hu
          rw [if_pos rfl, if_pos rfl]
          simp [mem_jsSetAdd]
        · rw [if_pos rfl, if_neg hu, hInv u t, hnone]
          simp
          exact fun h => hu h.symm
      · rw [if_neg ht]
        by_cases hu : u = userId
        · subst hu
          rw [if_pos rfl]
          rw [show (t ∈ jsSetAdd (jsSetFromList (userTokens s u)) tok) =
            (t ∈ userTokens s u) from by
              simp [mem_jsSetAdd, mem_jsSetFromList, ht]]
          exact hInv u t
        · rw [if_neg hu]
          exact hInv u t
    · rw [userTokens_createProxyToken, if_pos rfl]
      rw [mem_jsSetAdd]
      exact Or.inr rfl
    · rw [policyEntry_createProxyToken, if_pos rfl]
  · intro tok
    cases hpe : policyEntry s tok with
    | none =>
      rw [revokeProxyToken_of_no_entry s tok hpe]
      refine ⟨hInv, hpe, ?_⟩
      intro u hmem
      have h2 := (hInv u tok).mp hmem
      rw [hpe] at h2
      simp at h2
    | some a =>
      refine ⟨?_, ?_, ?_⟩
      · intro u t
        rw [userTokens_revokeProxyToken_of_entry s tok a hpe u,
          policyEntry_revokeProxyToken_of_entry s tok a hpe t]
        by_cases ht : t = tok
        · subst ht
          rw [if_pos rfl]
          by_cases hu : u = a.user
          · rw [if_pos hu]
            simp [mem_jsSetDelete]
          · rw [if_neg hu, hInv u t, hpe]
            simp
            exact fun h => hu h.symm
        · rw [if_neg ht]
          by_cases hu : u = a.user
          · subst hu
            rw [if_pos rfl]
            rw [show (t ∈ jsSetDelete (jsSetFromList (userTokens s a.user)) tok) =
              (t ∈ userTokens s a.user) from by
                simp [mem_jsSetDelete, mem_jsSetFromList, ht]]
            exact hInv a.user t
          · rw [if_neg hu]
            exact hInv u t
      · rw [policyEntry_revokeProxyToken_of_entry s tok a hpe tok, if_pos rfl]
      · intro u
        rw [userTokens_revokeProxyToken_of_entry s tok a hpe u]
        by_cases hu : u = a.user
        · rw [if_pos hu]
          simp [mem_jsSetDelete]
        · rw [if_neg hu]
          intro hmem
          have h2 := (hInv u tok).mp hmem
          rw [hpe] at h2
          obtain ⟨b, hb, hbu⟩ := h2
          injection hb with hb2
          subst hb2
          exact hu hbu.symm

/-- A user id used by the proxy-token witness. -/
def userW : String := "user-w"

/-- A proxy token used by the proxy-token witness. -/
def tokW : String := "tok-w"

/-- Witness for C9 at concrete inputs: issuing `tokW` for `userW` on the
empty (hence consistent) store puts it in `userW`'s set and stores its
policy record; revoking it afterwards removes it from the set. -/
theorem proxyTokens_consistency_witness :
    tokW ∈ userTokens (createProxyToken emptyStorage userW tokW none 5000) userW ∧
    policyEntry (createProxyToken emptyStorage userW tokW none 5000) tokW =
      some ⟨userW, none, 5⟩ ∧
    tokW ∉ userTokens
      (revokeProxyToken (createProxyToken emptyStorage userW tokW none 5000) tokW)
      userW := by
  have h1 := (proxyTokens_consistency emptyStorage proxyTokensConsistent_empty).1
    userW tokW none 5000 rfl
  have hInv2 := h1.1
  have h2 := (proxyTokens_consistency
    (createProxyToken emptyStorage userW tokW none 5000) hInv2).2 tokW
  exact ⟨h1.2.1, h1.2.2, h2.2.2 userW⟩

/-- Claim C10: the announcements cache is a single process-wide variable
with no expiry and no per-user keying — the endpoint's outcome is
independent of the requesting user and of the clock, a filled cache is
served verbatim to any authorized request with no upstream call and
without modifying the cache, and the first successful fetch fills it. -/
theorem announcements_cached_globally (policy : Option AuthPolicy)
    (u1 u2 : String) (n1 n2 : Nat) (cached : Option (List Announcement))
    (authResult : Except String Unit)
    (fetchResult : Except String (List Announcement)) :
    (announcementsEndpoint policy u1 n1 cached authResult fetchResult =
      announcementsEndpoint policy u2 n2 cached authResult fetchResult) ∧
    (∀ l, cached = some l →
      (match policy with
        | some p => p.announcements
        | none => true) = true →
      authResult = Except.ok () →
      announcementsEndpoint policy u1 n1 cached authResult fetchResult =
        (⟨200, .announcementsBody l⟩, some l, false)) ∧
    (cached = none →
      (match policy with
        | some p => p.announcements
        | none => true) = true →
      authResult = Except.ok () →
      ∀ l, fetchResult = .ok l →
      announcementsEndpoint policy u1 n1 cached authResult fetchResult =
        (⟨200, .announcementsBody l⟩, some l, true)) := by
  refine ⟨rfl, ?_, ?_⟩
  · intro l hc hcap ha
    subst hc
    subst ha
    simp [announcementsEndpoint, hcap]
  · intro hc hcap ha l hf
    subst hc
    subst ha
    subst hf
    simp [announcementsEndpoint, hcap]

/-- An announcement used by witnesses. -/
def annA : Announcement := ⟨"announcement-a"⟩

/-- Witness for C10 at concrete inputs: with the cache holding `[annA]`,
two requests by different users at different times both get `[annA]`
with no upstream call and the cache unchanged. -/
theorem announcements_cached_globally_witness :
    announcementsEndpoint none ("user-1") 1000 (some [annA]) (Except.ok ())
        (Except.error ("unreachable")) =
      (⟨200, .announcementsBody [annA]⟩, some [annA], false) ∧
    announcementsEndpoint none ("user-2") 99000 (some [annA]) (Except.ok ())
        (Except.error ("unreachable")) =
      (⟨200, .announcementsBody [annA]⟩, some [annA], false) := by
  have h1 := (announcements_cached_globally none ("user-1") ("user-2") 1000 99000
    (some [annA]) (Except.ok ()) (Except.error ("unreachable"))).2.1 [annA] rfl rfl rfl
  have heq := (announcements_cached_globally none ("user-1") ("user-2") 1000 99000
    (some [annA]) (Except.ok ()) (Except.error ("unreachable"))).1
  exact ⟨h1, heq ▸ h1⟩
